import Mathlib

/-!
Verification of `lib/SILOptimizer/Mandatory/TFDeviceSupport.h`: TensorFlow
device types, device-usage bookkeeping (`GraphFunctionDeviceInfo`), the
used-device iterator (`DeviceTypeMgr`), and the device partitioner's
transfer-id discipline.

The C++ code is shallowly embedded: `llvm_unreachable` and `assert`
failures are modelled as `Option.none`, the `bool usedDeviceTypes[5]`
array as a function `Nat → Bool` (indices ≥ 5 are never touched by the
code and stay `false` in every reachable state), and the input-iterator
protocol of `DeviceTypeMgr` as the finite list of elements a
`begin()`/`end()` loop yields.
-/

/-- The device of a tfop instruction. Mirrors `enum class DeviceType`
(`INVALID`, `CPU`, `GPU`, `TPU`, `ALL`) with the same underlying values. -/
inductive DeviceType where
  | INVALID
  | CPU
  | GPU
  | TPU
  | ALL
deriving DecidableEq, Repr

/-- `static const int NUM_DEVICE_TYPES = 5`. -/
def NUM_DEVICE_TYPES : Nat := 5

/-- The underlying value of the C++ enum, i.e. the cast `(unsigned)device`. -/
def deviceIdx : DeviceType → Nat
  | .INVALID => 0
  | .CPU => 1
  | .GPU => 2
  | .TPU => 3
  | .ALL => 4

/-- The cast `(DeviceType)deviceIdx` used by the iterator; the code only
applies it to indices 0..4. -/
def idxDevice : Nat → DeviceType
  | 1 => .CPU
  | 2 => .GPU
  | 3 => .TPU
  | 4 => .ALL
  | _ => .INVALID

def DEFAULT_CPU_DEVICE : String := "/device:CPU:0"

def DEFAULT_GPU_DEVICE : String := "/device:GPU:0"

def DEFAULT_TPU_DEVICE : String := "TPU_SYSTEM"

def ALL_DEVICES : String := "ALL_DEVICES"

/-- `getOpDeviceType`: exact string match against the four canonical device
strings; the trailing `llvm_unreachable("Unknown device type")` is modelled
as `none`. -/
def getOpDeviceType (device : String) : Option DeviceType :=
  if device = DEFAULT_CPU_DEVICE then some .CPU
  else if device = DEFAULT_GPU_DEVICE then some .GPU
  else if device = DEFAULT_TPU_DEVICE then some .TPU
  else if device = ALL_DEVICES then some .ALL
  else none

/-- `getDeviceString`: the TF-graph-compatible device name; the
`llvm_unreachable("Unsupported device type")` on `INVALID` is `none`. -/
def getDeviceString : DeviceType → Option String
  | .CPU => some DEFAULT_CPU_DEVICE
  | .GPU => some DEFAULT_GPU_DEVICE
  | .TPU => some DEFAULT_TPU_DEVICE
  | .ALL => some ALL_DEVICES
  | .INVALID => none

/-- `getDeviceShortName`: short tag usable in SIL function names; fails
(`llvm_unreachable`) on `INVALID`. -/
def getDeviceShortName : DeviceType → Option String
  | .CPU => some "CPU"
  | .GPU => some "GPU"
  | .TPU => some "TPU"
  | .ALL => some "ALL"
  | .INVALID => none

/-- C3: for every `DeviceType` other than `INVALID`, converting to the
identifier string with `getDeviceString` and back with `getOpDeviceType`
yields the original device type. -/
theorem device_string_roundtrip (k : DeviceType) (hk : k ≠ DeviceType.INVALID) :
    (getDeviceString k).bind getOpDeviceType = some k := by
  cases k with
  | INVALID => exact absurd rfl hk
  | CPU => decide
  | GPU => decide
  | TPU => decide
  | ALL => decide

/-- Witness for C3 at the concrete input `GPU`. -/
theorem device_string_roundtrip_witness :
    (getDeviceString DeviceType.GPU).bind getOpDeviceType = some DeviceType.GPU :=
  device_string_roundtrip DeviceType.GPU (by decide)

/-- C5: `getOpDeviceType` returns a device type exactly on the four
canonical identifier strings, and fails (modelled `none`, in the code
`llvm_unreachable`) on every other string. -/
theorem getOpDeviceType_domain (s : String) :
    (getOpDeviceType s).isSome = true ↔
      (s = "/device:CPU:0" ∨ s = "/device:GPU:0" ∨ s = "TPU_SYSTEM" ∨
        s = "ALL_DEVICES") := by
  unfold getOpDeviceType DEFAULT_CPU_DEVICE DEFAULT_GPU_DEVICE
    DEFAULT_TPU_DEVICE ALL_DEVICES
  split_ifs with h1 h2 h3 h4 <;> simp_all

/-- C6: `getDeviceString` and `getDeviceShortName` each return a string
exactly for the device types other than `INVALID`; on `INVALID` each of the
two fails (`llvm_unreachable`, modelled `none`). -/
theorem device_strings_total_except_invalid (k : DeviceType) :
    ((getDeviceString k).isSome = true ↔ k ≠ DeviceType.INVALID) ∧
    ((getDeviceShortName k).isSome = true ↔ k ≠ DeviceType.INVALID) := by
  cases k <;> simp [getDeviceString, getDeviceShortName]

/-! ## The used-device iterator (`GraphFunctionDeviceInfo::DeviceTypeMgr`)

`operator++` is `while (++deviceIdx < NUM_DEVICE_TYPES) { if (!used[deviceIdx])
continue; ...; return *this; }`.  `begin()` constructs the iterator at index 0
and immediately applies `++`; `end()` sits at index `NUM_DEVICE_TYPES`.  The
loop is embedded structurally with an explicit remaining-slot count. -/

/-- The scan performed by `operator++`: starting at index `j` with `r` array
slots remaining (`j + r = NUM_DEVICE_TYPES` at every call site), return the
first index in `[j, j + r)` whose indicator is set, and `j + r` when none is. -/
def scanFrom (arr : Nat → Bool) : Nat → Nat → Nat
  | 0, j => j
  | r + 1, j => if arr j then j else scanFrom arr r (j + 1)

/-- `DeviceTypeMgr::iterator::operator++` on an iterator at index `i`:
pre-increment, then scan forward for a set indicator. -/
def succIdx (arr : Nat → Bool) (i : Nat) : Nat :=
  scanFrom arr (NUM_DEVICE_TYPES - (i + 1)) (i + 1)

/-- The indices a `begin()`/`end()` loop visits starting from iterator index
`i`, with fuel bounding the number of steps (each step strictly increases the
index, so `NUM_DEVICE_TYPES` steps always suffice). -/
def collectFrom (arr : Nat → Bool) : Nat → Nat → List Nat
  | 0, _ => []
  | fuel + 1, i =>
    if i < NUM_DEVICE_TYPES then i :: collectFrom arr fuel (succIdx arr i) else []

/-- The index sequence of a full `for (auto d : mgr)` loop:
`begin()` is index 0 pre-incremented once. -/
def iterSeq (arr : Nat → Bool) : List Nat :=
  collectFrom arr NUM_DEVICE_TYPES (succIdx arr 0)

/-- The device types yielded by iterating `DeviceTypeMgr` over the indicator
array `arr`; `operator*` is the cast `(DeviceType)deviceIdx`. -/
def usedDeviceListOf (arr : Nat → Bool) : List DeviceType :=
  (iterSeq arr).map idxDevice

theorem scanFrom_ge (arr : Nat → Bool) : ∀ r j, j ≤ scanFrom arr r j := by
  intro r
  induction r with
  | zero => intro j; exact Nat.le_refl j
  | succ r ih =>
    intro j
    simp only [scanFrom]
    split
    · exact Nat.le_refl j
    · exact Nat.le_trans (Nat.le_succ j) (ih (j + 1))

theorem scanFrom_lt_imp (arr : Nat → Bool) :
    ∀ r j, scanFrom arr r j < j + r → arr (scanFrom arr r j) = true := by
  intro r
  induction r with
  | zero =>
    intro j h
    simp only [scanFrom] at h
    omega
  | succ r ih =>
    intro j h
    by_cases ha : arr j
    · simp [scanFrom, ha]
    · simp only [scanFrom, ha, Bool.false_eq_true, if_false] at h ⊢
      exact ih (j + 1) (by omega)

theorem succIdx_gt (arr : Nat → Bool) (i : Nat) : i < succIdx arr i :=
  Nat.lt_of_lt_of_le (Nat.lt_succ_self i) (scanFrom_ge arr _ (i + 1))

theorem collectFrom_succ_eq (arr : Nat → Bool) (fuel i : Nat) :
    collectFrom arr (fuel + 1) i =
      if i < NUM_DEVICE_TYPES then i :: collectFrom arr fuel (succIdx arr i)
      else [] := rfl

theorem collectFrom_congr (arr : Nat → Bool) :
    ∀ f1 f2 i, NUM_DEVICE_TYPES - i ≤ f1 → NUM_DEVICE_TYPES - i ≤ f2 →
      collectFrom arr f1 i = collectFrom arr f2 i := by
  intro f1
  induction f1 with
  | zero =>
    intro f2 i h1 _
    cases f2 with
    | zero => rfl
    | succ f2 =>
      simp only [collectFrom]
      rw [if_neg (by omega : ¬ i < NUM_DEVICE_TYPES)]
  | succ f1 ih =>
    intro f2 i h1 h2
    cases f2 with
    | zero =>
      simp only [collectFrom]
      rw [if_neg (by omega : ¬ i < NUM_DEVICE_TYPES)]
    | succ f2 =>
      simp only [collectFrom]
      by_cases hi : i < NUM_DEVICE_TYPES
      · rw [if_pos hi, if_pos hi]
        have hgt := succIdx_gt arr i
        rw [ih f2 (succIdx arr i) (by omega) (by omega)]
      · rw [if_neg hi, if_neg hi]

theorem collectFrom_scanFrom (arr : Nat → Bool) :
    ∀ r j, j + r = NUM_DEVICE_TYPES →
      collectFrom arr (r + 1) (scanFrom arr r j) = (List.range' j r).filter arr := by
  intro r
  induction r with
  | zero =>
    intro j hj
    simp only [scanFrom, collectFrom]
    rw [if_neg (by omega : ¬ j < NUM_DEVICE_TYPES)]
    simp
  | succ r ih =>
    intro j hj
    have hjlt : j < NUM_DEVICE_TYPES := by omega
    rw [List.range'_succ]
    by_cases ha : arr j
    · have hsucc : succIdx arr j = scanFrom arr r (j + 1) := by
        unfold succIdx
        rw [(by omega : NUM_DEVICE_TYPES - (j + 1) = r)]
      have hscan : scanFrom arr (r + 1) j = j := by simp [scanFrom, ha]
      rw [hscan, collectFrom_succ_eq, if_pos hjlt, hsucc, ih (j + 1) (by omega)]
      simp [List.filter_cons, ha]
    · have hge := scanFrom_ge arr r (j + 1)
      have hscan : scanFrom arr (r + 1) j = scanFrom arr r (j + 1) := by
        simp [scanFrom, ha]
      rw [hscan,
        collectFrom_congr arr (r + 1 + 1) (r + 1) (scanFrom arr r (j + 1))
          (by omega) (by omega),
        ih (j + 1) (by omega)]
      simp [List.filter_cons, ha]

theorem iterSeq_eq_filter (arr : Nat → Bool) :
    iterSeq arr = [1, 2, 3, 4].filter arr := by
  have h := collectFrom_scanFrom arr 4 1 rfl
  have e1 : List.range' 1 4 = [1, 2, 3, 4] := rfl
  rw [e1] at h
  show collectFrom arr NUM_DEVICE_TYPES (succIdx arr 0) = _
  have e2 : succIdx arr 0 = scanFrom arr 4 1 := rfl
  have e3 : NUM_DEVICE_TYPES = 4 + 1 := rfl
  rw [e2, e3, h]

theorem invalid_not_mem_usedList (arr : Nat → Bool) :
    DeviceType.INVALID ∉ usedDeviceListOf arr := by
  unfold usedDeviceListOf
  rw [iterSeq_eq_filter]
  intro hmem
  rw [List.mem_map] at hmem
  obtain ⟨j, hj, hidx⟩ := hmem
  have hj4 := (List.mem_filter.mp hj).1
  fin_cases hj4 <;> revert hidx <;> decide

theorem mem_usedList (arr : Nat → Bool) (k : DeviceType)
    (hk : k ≠ DeviceType.INVALID) :
    k ∈ usedDeviceListOf arr ↔ arr (deviceIdx k) = true := by
  unfold usedDeviceListOf
  rw [iterSeq_eq_filter]
  constructor
  · intro hmem
    rw [List.mem_map] at hmem
    obtain ⟨j, hj, hidx⟩ := hmem
    rw [List.mem_filter] at hj
    obtain ⟨hj4, harr⟩ := hj
    fin_cases hj4 <;> (rw [← hidx]; simpa [idxDevice, deviceIdx] using harr)
  · intro harr
    rw [List.mem_map]
    refine ⟨deviceIdx k, List.mem_filter.mpr ⟨?_, harr⟩, ?_⟩
    · cases k <;> simp_all [deviceIdx]
    · cases k <;> simp_all [deviceIdx, idxDevice]

theorem pairwise_usedList (arr : Nat → Bool) :
    (usedDeviceListOf arr).Pairwise (fun a b => deviceIdx a < deviceIdx b) := by
  unfold usedDeviceListOf
  rw [iterSeq_eq_filter, List.pairwise_map]
  have hp : ([1, 2, 3, 4].filter arr).Pairwise (· < ·) :=
    List.Pairwise.sublist (List.filter_sublist _) (by decide)
  refine List.Pairwise.imp_of_mem (fun {a b} ha hb hab => ?_) hp
  have ha4 := (List.mem_filter.mp ha).1
  have hb4 := (List.mem_filter.mp hb).1
  have ea : deviceIdx (idxDevice a) = a := by fin_cases ha4 <;> rfl
  have eb : deviceIdx (idxDevice b) = b := by fin_cases hb4 <;> rfl
  rw [ea, eb]
  exact hab

/-- C8: for every contents of the indicator array, including corrupted ones
where the `INVALID` slot is set, the iteration sequence of `DeviceTypeMgr`
never contains `DeviceType.INVALID`: `begin()` pre-increments past index 0
and `operator++` never inspects it. -/
theorem iteration_never_yields_invalid (arr : Nat → Bool) :
    (usedDeviceListOf arr).all (fun k => k != DeviceType.INVALID) = true := by
  rw [List.all_eq_true]
  intro x hx
  rw [bne_iff_ne]
  intro he
  subst he
  exact invalid_not_mem_usedList arr hx

/-- The assertion check inside `DeviceTypeMgr::iterator::operator++` for one
increment from index `i`: the loop body asserts that a yielded index casts to
neither `INVALID` nor `ALL`, so the assertion fires exactly when the scan
stops inside the array (index `< NUM_DEVICE_TYPES`) at such an index. -/
def assertFires (arr : Nat → Bool) (i : Nat) : Bool :=
  decide (succIdx arr i < NUM_DEVICE_TYPES) &&
    (idxDevice (succIdx arr i) == DeviceType.INVALID ||
      idxDevice (succIdx arr i) == DeviceType.ALL)

/-- C9: under the documented precondition of `DeviceTypeMgr` — the array
slots for `DeviceType::INVALID` (index 0) and `DeviceType::ALL` (index 4)
are not set — the assertions inside `operator++` can never fire, for an
increment from any iterator index. -/
theorem iterator_asserts_never_fire (arr : Nat → Bool)
    (h0 : arr 0 = false) (h4 : arr 4 = false) (i : Nat) :
    assertFires arr i = false := by
  unfold assertFires
  by_cases hlt : succIdx arr i < NUM_DEVICE_TYPES
  · have hgt : i < succIdx arr i := succIdx_gt arr i
    have harr : arr (succIdx arr i) = true := by
      unfold succIdx at hlt ⊢
      by_cases hi : i + 1 ≤ NUM_DEVICE_TYPES
      · exact scanFrom_lt_imp arr _ _ (by omega)
      · have hz : NUM_DEVICE_TYPES - (i + 1) = 0 := by omega
        rw [hz] at hlt
        simp only [scanFrom] at hlt
        omega
    generalize hm : succIdx arr i = m at hlt harr hgt ⊢
    have h5 : m < 5 := hlt
    have h1 : 1 ≤ m := by omega
    interval_cases m <;> first | decide | simp_all
  · simp [hlt]

/-- Witness for C9 at the indicator array of a tracker whose only used
device is `CPU`, incrementing from index 0 (the `begin()` increment). -/
theorem iterator_asserts_never_fire_witness :
    assertFires (fun j => j == 1) 0 = false :=
  iterator_asserts_never_fire (fun j => j == 1) rfl rfl 0

/-! ## The device usage tracker (`struct GraphFunctionDeviceInfo`) -/

/-- `struct GraphFunctionDeviceInfo`: primary device, TPU-infeed flag, the
used-device count, and the `bool usedDeviceTypes[NUM_DEVICE_TYPES]` array
(as a function on indices; slots ≥ `NUM_DEVICE_TYPES` are never touched). -/
structure GraphFunctionDeviceInfo where
  primaryDeviceType : DeviceType
  isTPUInfeedEnabled : Bool
  numUsedDeviceTypes : Nat
  usedDeviceTypes : Nat → Bool

/-- The private constructor: asserts `primaryDeviceType != DeviceType::ALL`
(assertion failure modelled as `none`), zeroes the array (`memset`), marks
the primary device's slot and sets the count to 1. -/
def GraphFunctionDeviceInfo.construct (primary : DeviceType)
    (tpuInfeed : Bool) : Option GraphFunctionDeviceInfo :=
  if primary = DeviceType.ALL then none
  else
    some { primaryDeviceType := primary
           isTPUInfeedEnabled := tpuInfeed
           numUsedDeviceTypes := 1
           usedDeviceTypes := fun j => j == deviceIdx primary }

/-- `markDeviceUsed`: asserts the device is not `INVALID` (modelled `none`);
returns with no change when the device is `ALL` or its slot is already set;
otherwise sets the slot and increments `numUsedDeviceTypes`. -/
def GraphFunctionDeviceInfo.markDeviceUsed (info : GraphFunctionDeviceInfo)
    (device : DeviceType) : Option GraphFunctionDeviceInfo :=
  if device = DeviceType.INVALID then none
  else if device = DeviceType.ALL ∨
      info.usedDeviceTypes (deviceIdx device) = true then some info
  else
    some { info with
           usedDeviceTypes :=
             fun j => if j == deviceIdx device then true
                      else info.usedDeviceTypes j
           numUsedDeviceTypes := info.numUsedDeviceTypes + 1 }

/-- A sequence of `markDeviceUsed` calls; an assertion failure aborts. -/
def applyMarks (info : GraphFunctionDeviceInfo) :
    List DeviceType → Option GraphFunctionDeviceInfo
  | [] => some info
  | d :: ds => (info.markDeviceUsed d).bind (fun s => applyMarks s ds)

/-- `getUsedDeviceTypes`, read as the sequence of device types a full
iteration of the returned `DeviceTypeMgr` yields. -/
def GraphFunctionDeviceInfo.getUsedDeviceTypes
    (info : GraphFunctionDeviceInfo) : List DeviceType :=
  usedDeviceListOf info.usedDeviceTypes

/-- Number of set indicators among the `NUM_DEVICE_TYPES` array slots. -/
def trueCount (arr : Nat → Bool) : Nat :=
  ((List.range NUM_DEVICE_TYPES).filter arr).length

theorem deviceIdx_lt (d : DeviceType) : deviceIdx d < NUM_DEVICE_TYPES := by
  cases d <;> decide

theorem deviceIdx_inj (a b : DeviceType) : deviceIdx a = deviceIdx b ↔ a = b := by
  cases a <;> cases b <;> decide

/-- `markDeviceUsed` can only succeed on a non-`INVALID` device; it keeps
the primary device and the TPU flag, and the new array is the old one with
the device's slot forced on (a no-op for `ALL` and for already-set slots). -/
theorem markDeviceUsed_fields {info infoN : GraphFunctionDeviceInfo}
    {d : DeviceType} (h : info.markDeviceUsed d = some infoN) :
    d ≠ DeviceType.INVALID ∧
    infoN.primaryDeviceType = info.primaryDeviceType ∧
    infoN.isTPUInfeedEnabled = info.isTPUInfeedEnabled ∧
    ∀ j, infoN.usedDeviceTypes j =
      (info.usedDeviceTypes j ||
        ((d != DeviceType.ALL) && (deviceIdx d == j))) := by
  unfold GraphFunctionDeviceInfo.markDeviceUsed at h
  by_cases hI : d = DeviceType.INVALID
  · rw [if_pos hI] at h
    exact absurd h (by simp)
  · rw [if_neg hI] at h
    by_cases hA : d = DeviceType.ALL ∨
        info.usedDeviceTypes (deviceIdx d) = true
    · rw [if_pos hA] at h
      injection h with h
      subst h
      refine ⟨hI, rfl, rfl, fun j => ?_⟩
      rcases hA with hA | hA
      · subst hA
        simp
      · by_cases hj : deviceIdx d = j
        · subst hj
          simp [hA]
        · have hb : (deviceIdx d == j) = false := by
            simp [hj]
          simp [hb]
    · rw [if_neg hA] at h
      simp only [not_or, Bool.not_eq_true] at hA
      obtain ⟨hA1, hA2⟩ := hA
      injection h with h
      subst h
      refine ⟨hI, rfl, rfl, fun j => ?_⟩
      by_cases hj : j = deviceIdx d
      · subst hj
        have hb : (d != DeviceType.ALL) = true := by simp [hA1]
        simp [hA2, hb]
      · have hb1 : (j == deviceIdx d) = false := by simp [hj]
        have hb2 : (deviceIdx d == j) = false := by simp [Ne.symm hj]
        simp [hb1, hb2]

theorem filter_length_update (arr : Nat → Bool) (k : Nat) :
    ∀ l : List Nat, k ∈ l → l.Nodup → arr k = false →
      (l.filter (fun j => if j == k then true else arr j)).length =
        (l.filter arr).length + 1 := by
  intro l
  induction l with
  | nil =>
    intro hk
    simp at hk
  | cons a l ih =>
    intro hk hnd hf
    rw [List.nodup_cons] at hnd
    obtain ⟨ha, hnd⟩ := hnd
    rcases List.mem_cons.mp hk with rfl | hk2
    · have hcong : l.filter (fun j => if j == k then true else arr j) =
          l.filter arr := by
        apply List.filter_congr
        intro x hx
        have hxk : (x == k) = false := by
          simp only [beq_eq_false_iff_ne, ne_eq]
          intro he
          exact ha (he ▸ hx)
        simp [hxk]
      rw [List.filter_cons_of_pos (by simp), List.filter_cons_of_neg (by simp [hf]),
        hcong]
      rfl
    · have hak : (a == k) = false := by
        simp only [beq_eq_false_iff_ne, ne_eq]
        intro he
        exact ha (he ▸ hk2)
      have hrec := ih hk2 hnd hf
      by_cases haa : arr a
      · rw [List.filter_cons_of_pos (by simp [hak, haa]),
          List.filter_cons_of_pos haa]
        simp only [List.length_cons]
        omega
      · rw [List.filter_cons_of_neg (by simp [hak, haa]),
          List.filter_cons_of_neg haa]
        exact hrec

/-- One `markDeviceUsed` call preserves the count invariant. -/
theorem markDeviceUsed_count {info infoN : GraphFunctionDeviceInfo}
    {d : DeviceType} (h : info.markDeviceUsed d = some infoN)
    (hc : info.numUsedDeviceTypes = trueCount info.usedDeviceTypes) :
    infoN.numUsedDeviceTypes = trueCount infoN.usedDeviceTypes := by
  unfold GraphFunctionDeviceInfo.markDeviceUsed at h
  by_cases hI : d = DeviceType.INVALID
  · rw [if_pos hI] at h
    exact absurd h (by simp)
  · rw [if_neg hI] at h
    by_cases hA : d = DeviceType.ALL ∨
        info.usedDeviceTypes (deviceIdx d) = true
    · rw [if_pos hA] at h
      injection h with h
      subst h
      exact hc
    · rw [if_neg hA] at h
      simp only [not_or, Bool.not_eq_true] at hA
      obtain ⟨hA1, hA2⟩ := hA
      injection h with h
      subst h
      show info.numUsedDeviceTypes + 1 =
        trueCount (fun j => if j == deviceIdx d then true
                            else info.usedDeviceTypes j)
      unfold trueCount
      rw [filter_length_update info.usedDeviceTypes (deviceIdx d)
        (List.range NUM_DEVICE_TYPES)
        (List.mem_range.mpr (deviceIdx_lt d)) (List.nodup_range _) hA2]
      rw [hc]
      rfl

theorem applyMarks_fields :
    ∀ (ds : List DeviceType) (info infoN : GraphFunctionDeviceInfo),
      applyMarks info ds = some infoN →
      infoN.primaryDeviceType = info.primaryDeviceType ∧
      (∀ d ∈ ds, d ≠ DeviceType.INVALID) ∧
      ∀ j, infoN.usedDeviceTypes j =
        (info.usedDeviceTypes j ||
          ds.any (fun d => (d != DeviceType.ALL) && (deviceIdx d == j))) := by
  intro ds
  induction ds with
  | nil =>
    intro info infoN h
    injection h with h
    subst h
    simp
  | cons d ds ih =>
    intro info infoN h
    rw [applyMarks, Option.bind_eq_some] at h
    obtain ⟨s, hs, hrest⟩ := h
    obtain ⟨hdI, hprim1, _, harr1⟩ := markDeviceUsed_fields hs
    obtain ⟨hprim2, hds2, harr2⟩ := ih s infoN hrest
    refine ⟨hprim2.trans hprim1, ?_, fun j => ?_⟩
    · intro e he
      rcases List.mem_cons.mp he with rfl | he2
      · exact hdI
      · exact hds2 e he2
    · rw [harr2 j, harr1 j, List.any_cons, Bool.or_assoc]

theorem applyMarks_count :
    ∀ (ds : List DeviceType) (info infoN : GraphFunctionDeviceInfo),
      applyMarks info ds = some infoN →
      info.numUsedDeviceTypes = trueCount info.usedDeviceTypes →
      infoN.numUsedDeviceTypes = trueCount infoN.usedDeviceTypes := by
  intro ds
  induction ds with
  | nil =>
    intro info infoN h hc
    injection h with h
    subst h
    exact hc
  | cons d ds ih =>
    intro info infoN h hc
    rw [applyMarks, Option.bind_eq_some] at h
    obtain ⟨s, hs, hrest⟩ := h
    exact ih s infoN hrest (markDeviceUsed_count hs hc)

theorem construct_eq_some {primary : DeviceType} {tpu : Bool}
    {info : GraphFunctionDeviceInfo}
    (h : GraphFunctionDeviceInfo.construct primary tpu = some info) :
    primary ≠ DeviceType.ALL ∧
    info.primaryDeviceType = primary ∧
    info.numUsedDeviceTypes = 1 ∧
    ∀ j, info.usedDeviceTypes j = (j == deviceIdx primary) := by
  unfold GraphFunctionDeviceInfo.construct at h
  by_cases hA : primary = DeviceType.ALL
  · rw [if_pos hA] at h
    exact absurd h (by simp)
  · rw [if_neg hA] at h
    injection h with h
    subst h
    exact ⟨hA, rfl, rfl, fun j => rfl⟩

theorem trueCount_init (primary : DeviceType) :
    trueCount (fun j => j == deviceIdx primary) = 1 := by
  cases primary <;> rfl

/-- In every state reachable from a constructed tracker by marks, the `ALL`
slot is clear, and the `INVALID` slot is clear provided the primary device
is not `INVALID`. -/
theorem reachable_slots (primary : DeviceType) (tpu : Bool)
    (ds : List DeviceType) (s0 s : GraphFunctionDeviceInfo)
    (h0 : GraphFunctionDeviceInfo.construct primary tpu = some s0)
    (h : applyMarks s0 ds = some s) :
    s.usedDeviceTypes (deviceIdx DeviceType.ALL) = false ∧
    (primary ≠ DeviceType.INVALID →
      s.usedDeviceTypes (deviceIdx DeviceType.INVALID) = false) := by
  obtain ⟨hA, hprim0, hnum0, harr0⟩ := construct_eq_some h0
  obtain ⟨hprim, hds, harr⟩ := applyMarks_fields ds s0 s h
  constructor
  · rw [harr, harr0]
    have h1 : ((deviceIdx DeviceType.ALL : Nat) ==
        deviceIdx primary) = false := by
      cases primary <;> first | rfl | exact absurd rfl hA
    have h2 : ds.any (fun d => (d != DeviceType.ALL) &&
        (deviceIdx d == deviceIdx DeviceType.ALL)) = false := by
      rw [List.any_eq_false]
      intro d hd
      cases d <;> decide
    rw [h1, h2]
    rfl
  · intro hp
    rw [harr, harr0]
    have h1 : ((deviceIdx DeviceType.INVALID : Nat) ==
        deviceIdx primary) = false := by
      cases primary <;> first | rfl | exact absurd rfl hp
    have h2 : ds.any (fun d => (d != DeviceType.ALL) &&
        (deviceIdx d == deviceIdx DeviceType.INVALID)) = false := by
      rw [List.any_eq_false]
      intro d hd
      have hdI := hds d hd
      cases d <;> first | exact absurd rfl hdI | decide
    rw [h1, h2]
    rfl

/-- Counterexample to C1 as stated: the constructor only asserts that the
primary device is not `ALL`, so construction with primary device `INVALID`
is a reachable state, and it sets the indicator slot of `INVALID`. -/
theorem invalid_primary_breaks_invariant :
    (GraphFunctionDeviceInfo.construct DeviceType.INVALID false).map
      (fun s => s.usedDeviceTypes (deviceIdx DeviceType.INVALID)) =
      some true := rfl

/-- C1 (amended): for every state reachable by construction with a primary
device other than `INVALID` followed by any sequence of `markDeviceUsed`
calls, the primary device's indicator is set, `numUsedDeviceTypes` equals
the number of set indicators, and the indicators of `ALL` and `INVALID`
are clear.  (As stated the claim fails when the primary device is
`INVALID`, which the constructor permits; see the counterexample.) -/
theorem deviceInfo_invariant (primary : DeviceType) (tpu : Bool)
    (ds : List DeviceType) (s0 s : GraphFunctionDeviceInfo)
    (hp : primary ≠ DeviceType.INVALID)
    (h0 : GraphFunctionDeviceInfo.construct primary tpu = some s0)
    (h : applyMarks s0 ds = some s) :
    s.usedDeviceTypes (deviceIdx s.primaryDeviceType) = true ∧
    s.numUsedDeviceTypes = trueCount s.usedDeviceTypes ∧
    s.usedDeviceTypes (deviceIdx DeviceType.ALL) = false ∧
    s.usedDeviceTypes (deviceIdx DeviceType.INVALID) = false := by
  obtain ⟨hA, hprim0, hnum0, harr0⟩ := construct_eq_some h0
  obtain ⟨hprim, hds, harr⟩ := applyMarks_fields ds s0 s h
  obtain ⟨hall, hinv⟩ := reachable_slots primary tpu ds s0 s h0 h
  refine ⟨?_, ?_, hall, hinv hp⟩
  · rw [hprim, hprim0, harr, harr0]
    simp
  · apply applyMarks_count ds s0 s h
    rw [hnum0]
    have he : s0.usedDeviceTypes = fun j => (j == deviceIdx primary) :=
      funext harr0
    rw [he, trueCount_init]

/-- A concrete tracker: the result of construction with primary `CPU`. -/
def exampleInfo : GraphFunctionDeviceInfo :=
  { primaryDeviceType := DeviceType.CPU
    isTPUInfeedEnabled := false
    numUsedDeviceTypes := 1
    usedDeviceTypes := fun j => j == deviceIdx DeviceType.CPU }

/-- The tracker `exampleInfo` after `markDeviceUsed(GPU)`. -/
def exampleInfo2 : GraphFunctionDeviceInfo :=
  { primaryDeviceType := DeviceType.CPU
    isTPUInfeedEnabled := false
    numUsedDeviceTypes := 2
    usedDeviceTypes :=
      fun j => if j == deviceIdx DeviceType.GPU then true
               else exampleInfo.usedDeviceTypes j }

/-- Witness for the amended C1: primary `CPU`, marks `[GPU, ALL, GPU]`. -/
theorem deviceInfo_invariant_witness :
    exampleInfo2.usedDeviceTypes (deviceIdx exampleInfo2.primaryDeviceType)
      = true ∧
    exampleInfo2.numUsedDeviceTypes = trueCount exampleInfo2.usedDeviceTypes ∧
    exampleInfo2.usedDeviceTypes (deviceIdx DeviceType.ALL) = false ∧
    exampleInfo2.usedDeviceTypes (deviceIdx DeviceType.INVALID) = false :=
  deviceInfo_invariant DeviceType.CPU false
    [DeviceType.GPU, DeviceType.ALL, DeviceType.GPU] exampleInfo exampleInfo2
    (by decide) rfl rfl

/-- Counterexample to C2 as stated: with primary `CPU`, marking the device
kind set S = {ALL} succeeds (`markDeviceUsed(ALL)` is an explicit no-op),
yet the enumeration yields only `[CPU]`, so it does not yield
S ∪ {primary}: the marked kind `ALL` is missing from it. -/
theorem marking_all_not_enumerated :
    ((GraphFunctionDeviceInfo.construct DeviceType.CPU false).bind
        (fun s0 => applyMarks s0 [DeviceType.ALL])).map
      GraphFunctionDeviceInfo.getUsedDeviceTypes = some [DeviceType.CPU] ∧
    DeviceType.ALL ∉ [DeviceType.CPU] :=
  ⟨rfl, by decide⟩

theorem pred_eq_beq (k : DeviceType) (hkA : k ≠ DeviceType.ALL)
    (d : DeviceType) :
    ((d != DeviceType.ALL) && (deviceIdx d == deviceIdx k)) = (d == k) := by
  cases d <;> cases k <;> first | rfl | exact absurd rfl hkA

/-- C2 (amended): after construction with a primary device other than
`INVALID` and marking any set S of concrete device kinds (no `INVALID`, no
`ALL`), iterating `getUsedDeviceTypes` yields exactly the kinds in
S ∪ {primary}, each exactly once, in strictly ascending enumeration order,
and never `ALL` or `INVALID`.  (As stated the claim fails when S contains
`AllDevices`, whose mark is dropped; see the counterexample.) -/
theorem usedDeviceTypes_enumeration (primary : DeviceType) (tpu : Bool)
    (S : List DeviceType) (s0 s : GraphFunctionDeviceInfo)
    (hp : primary ≠ DeviceType.INVALID)
    (hS : ∀ d ∈ S, d ≠ DeviceType.INVALID ∧ d ≠ DeviceType.ALL)
    (h0 : GraphFunctionDeviceInfo.construct primary tpu = some s0)
    (h : applyMarks s0 S = some s) :
    (∀ k, k ∈ s.getUsedDeviceTypes ↔ (k ∈ S ∨ k = primary)) ∧
    s.getUsedDeviceTypes.Pairwise (fun a b => deviceIdx a < deviceIdx b) ∧
    s.getUsedDeviceTypes.Nodup ∧
    DeviceType.ALL ∉ s.getUsedDeviceTypes ∧
    DeviceType.INVALID ∉ s.getUsedDeviceTypes := by
  obtain ⟨hA, hprim0, hnum0, harr0⟩ := construct_eq_some h0
  obtain ⟨hprim, hds, harr⟩ := applyMarks_fields S s0 s h
  obtain ⟨hall, hinv⟩ := reachable_slots primary tpu S s0 s h0 h
  have hpw := pairwise_usedList s.usedDeviceTypes
  have hmemALL : DeviceType.ALL ∉ s.getUsedDeviceTypes := by
    intro hm
    have hm2 := (mem_usedList s.usedDeviceTypes DeviceType.ALL (by decide)).mp hm
    rw [hall] at hm2
    exact Bool.false_ne_true hm2
  have hmemINV : DeviceType.INVALID ∉ s.getUsedDeviceTypes :=
    invalid_not_mem_usedList s.usedDeviceTypes
  refine ⟨?_, hpw, ?_, hmemALL, hmemINV⟩
  · intro k
    by_cases hkI : k = DeviceType.INVALID
    · subst hkI
      constructor
      · intro hm
        exact absurd hm hmemINV
      · rintro (hk | hk)
        · exact absurd rfl (hS _ hk).1
        · exact absurd hk.symm hp
    · by_cases hkA : k = DeviceType.ALL
      · subst hkA
        constructor
        · intro hm
          exact absurd hm hmemALL
        · rintro (hk | hk)
          · exact absurd rfl (hS _ hk).2
          · exact absurd hk.symm hA
      · show k ∈ usedDeviceListOf s.usedDeviceTypes ↔ (k ∈ S ∨ k = primary)
        rw [mem_usedList s.usedDeviceTypes k hkI, harr, harr0,
          funext (pred_eq_beq k hkA)]
        simp only [Bool.or_eq_true, beq_iff_eq, List.any_eq_true]
        rw [deviceIdx_inj]
        simp only [exists_eq_right]
        exact or_comm
  · exact hpw.imp (fun hab heq => absurd (heq ▸ hab) (lt_irrefl _))

/-- Witness for the amended C2: primary `CPU`, S = {GPU}. -/
theorem usedDeviceTypes_enumeration_witness :
    DeviceType.GPU ∈ exampleInfo2.getUsedDeviceTypes ∧
    DeviceType.CPU ∈ exampleInfo2.getUsedDeviceTypes ∧
    DeviceType.ALL ∉ exampleInfo2.getUsedDeviceTypes ∧
    exampleInfo2.getUsedDeviceTypes.Nodup := by
  have h := usedDeviceTypes_enumeration DeviceType.CPU false [DeviceType.GPU]
    exampleInfo exampleInfo2 (by decide) (by decide) rfl rfl
  exact ⟨(h.1 DeviceType.GPU).mpr (Or.inl (by decide)),
    (h.1 DeviceType.CPU).mpr (Or.inr rfl), h.2.2.2.1, h.2.2.1⟩

/-- C4: `markDeviceUsed` fails its assertion (modelled `none`) on `INVALID`;
it returns the tracker unchanged when the device is `ALL` or its indicator
is already set; otherwise it sets exactly the device's indicator,
increments `numUsedDeviceTypes` by one, and leaves every other slot and
every other field unchanged. -/
theorem markDeviceUsed_spec (info : GraphFunctionDeviceInfo)
    (k : DeviceType) :
    (k = DeviceType.INVALID → info.markDeviceUsed k = none) ∧
    (k ≠ DeviceType.INVALID →
      (k = DeviceType.ALL ∨ info.usedDeviceTypes (deviceIdx k) = true) →
      info.markDeviceUsed k = some info) ∧
    (k ≠ DeviceType.INVALID → k ≠ DeviceType.ALL →
      info.usedDeviceTypes (deviceIdx k) = false →
      ∃ sN, info.markDeviceUsed k = some sN ∧
        sN.usedDeviceTypes (deviceIdx k) = true ∧
        (∀ j, j ≠ deviceIdx k →
          sN.usedDeviceTypes j = info.usedDeviceTypes j) ∧
        sN.numUsedDeviceTypes = info.numUsedDeviceTypes + 1 ∧
        sN.primaryDeviceType = info.primaryDeviceType ∧
        sN.isTPUInfeedEnabled = info.isTPUInfeedEnabled) := by
  refine ⟨fun hk => ?_, fun hk hA => ?_, fun hk hA hused => ?_⟩
  · unfold GraphFunctionDeviceInfo.markDeviceUsed
    rw [if_pos hk]
  · unfold GraphFunctionDeviceInfo.markDeviceUsed
    rw [if_neg hk, if_pos hA]
  · unfold GraphFunctionDeviceInfo.markDeviceUsed
    rw [if_neg hk, if_neg (by simp [hA, hused])]
    refine ⟨_, rfl, by simp, fun j hj => ?_, rfl, rfl, rfl⟩
    have hb : (j == deviceIdx k) = false := by simp [hj]
    simp [hb]

/-- Witness for C4 at the concrete tracker `exampleInfo`: marking `INVALID`
fails, marking the already-used primary `CPU` is a no-op, and marking `ALL`
is a no-op. -/
theorem markDeviceUsed_spec_witness :
    exampleInfo.markDeviceUsed DeviceType.INVALID = none ∧
    exampleInfo.markDeviceUsed DeviceType.CPU = some exampleInfo ∧
    exampleInfo.markDeviceUsed DeviceType.ALL = some exampleInfo :=
  ⟨(markDeviceUsed_spec exampleInfo DeviceType.INVALID).1 rfl,
    (markDeviceUsed_spec exampleInfo DeviceType.CPU).2.1 (by decide)
      (Or.inr rfl),
    (markDeviceUsed_spec exampleInfo DeviceType.ALL).2.1 (by decide)
      (Or.inl rfl)⟩

/-- C10: for every state reachable by construction with a primary device
other than `INVALID` and `ALL`, followed by any sequence of
`markDeviceUsed` calls with arguments other than `INVALID`, the number of
elements yielded by iterating `getUsedDeviceTypes` equals the
`numUsedDeviceTypes` counter. -/
theorem enumeration_length_eq_count (primary : DeviceType) (tpu : Bool)
    (ds : List DeviceType) (s0 s : GraphFunctionDeviceInfo)
    (hp : primary ≠ DeviceType.INVALID) (hpA : primary ≠ DeviceType.ALL)
    (hds : ∀ d ∈ ds, d ≠ DeviceType.INVALID)
    (h0 : GraphFunctionDeviceInfo.construct primary tpu = some s0)
    (h : applyMarks s0 ds = some s) :
    s.getUsedDeviceTypes.length = s.numUsedDeviceTypes := by
  obtain ⟨hA, hprim0, hnum0, harr0⟩ := construct_eq_some h0
  obtain ⟨hall, hinv⟩ := reachable_slots primary tpu ds s0 s h0 h
  have hi0 : s.usedDeviceTypes 0 = false := hinv hp
  have hcount : s.numUsedDeviceTypes = trueCount s.usedDeviceTypes := by
    apply applyMarks_count ds s0 s h
    rw [hnum0]
    have he : s0.usedDeviceTypes = fun j => (j == deviceIdx primary) :=
      funext harr0
    rw [he, trueCount_init]
  rw [hcount]
  show (usedDeviceListOf s.usedDeviceTypes).length =
    trueCount s.usedDeviceTypes
  unfold usedDeviceListOf trueCount
  rw [List.length_map, iterSeq_eq_filter]
  have e2 : List.filter s.usedDeviceTypes (List.range NUM_DEVICE_TYPES) =
      List.filter s.usedDeviceTypes [1, 2, 3, 4] := by
    have e : List.range NUM_DEVICE_TYPES = 0 :: [1, 2, 3, 4] := rfl
    rw [e]
    exact List.filter_cons_of_neg (by simp [hi0])
  rw [e2]

/-- Witness for C10: primary `CPU`, marks `[GPU, ALL, GPU]` — two used
devices, and the enumeration `[CPU, GPU]` has two elements. -/
theorem enumeration_length_eq_count_witness :
    exampleInfo2.getUsedDeviceTypes.length =
      exampleInfo2.numUsedDeviceTypes :=
  enumeration_length_eq_count DeviceType.CPU false
    [DeviceType.GPU, DeviceType.ALL, DeviceType.GPU] exampleInfo exampleInfo2
    (by decide) (by decide) (by decide) rfl rfl

/-! ## Transfer ids (`DevicePartitioner`)

`DevicePartitioner` takes `SILFunction &srcFn`, the device info, and a
shared mutable counter `int &nextTensorTransferId`; its implementation
(`DevicePartitionerImpl`) is only forward-declared in this header, so the
send/receive insertion discipline below is modelled from the spec. -/

/-- Modelled from the spec: one cross-device transfer materialized by the
partitioner (`DevicePartitionerImpl` is not defined under the sources) — a
send operation on the producer device and its logically matching receive
operations, all carrying the same `TransferId`. -/
structure TensorTransfer where
  transferId : Int
  sendDevice : DeviceType
  recvDevices : List DeviceType
deriving DecidableEq, Repr

/-- Modelled from the spec: a partitioning session over the list of required
cross-device transfers (producer device, consumer devices), threading the
shared `nextTensorTransferId` counter: each inserted send takes the current
counter value for itself and its receives, and the counter is incremented. -/
def runTransfers (nextTensorTransferId : Int) :
    List (DeviceType × List DeviceType) → List TensorTransfer
  | [] => []
  | (src, dsts) :: rest =>
    { transferId := nextTensorTransferId
      sendDevice := src
      recvDevices := dsts } :: runTransfers (nextTensorTransferId + 1) rest

theorem runTransfers_lb :
    ∀ (reqs : List (DeviceType × List DeviceType)) (n : Int)
      (t : TensorTransfer), t ∈ runTransfers n reqs → n ≤ t.transferId := by
  intro reqs
  induction reqs with
  | nil =>
    intro n t ht
    simp [runTransfers] at ht
  | cons r rest ih =>
    intro n t ht
    obtain ⟨src, dsts⟩ := r
    rw [runTransfers] at ht
    rcases List.mem_cons.mp ht with rfl | ht2
    · exact le_refl _
    · have := ih (n + 1) t ht2
      omega

theorem runTransfers_pairwise :
    ∀ (reqs : List (DeviceType × List DeviceType)) (n : Int),
      (runTransfers n reqs).Pairwise
        (fun t u => t.transferId < u.transferId) := by
  intro reqs
  induction reqs with
  | nil =>
    intro n
    simp [runTransfers]
  | cons r rest ih =>
    intro n
    obtain ⟨src, dsts⟩ := r
    rw [runTransfers, List.pairwise_cons]
    refine ⟨fun u hu => ?_, ih (n + 1)⟩
    have := runTransfers_lb rest (n + 1) u hu
    simp only
    omega

theorem filter_tid_of_pairwise :
    ∀ ts : List TensorTransfer,
      ts.Pairwise (fun t u => t.transferId < u.transferId) →
      ∀ t ∈ ts,
        ts.filter (fun u => u.transferId == t.transferId) = [t] := by
  intro ts
  induction ts with
  | nil =>
    intro _ t ht
    simp at ht
  | cons a ts ih =>
    intro hpw t ht
    rw [List.pairwise_cons] at hpw
    obtain ⟨hlt, hpw⟩ := hpw
    rcases List.mem_cons.mp ht with rfl | ht2
    · rw [List.filter_cons_of_pos (by simp)]
      have htail : ts.filter (fun u => u.transferId == t.transferId) = [] := by
        rw [List.filter_eq_nil_iff]
        intro u hu
        have hgt := hlt u hu
        simp only [beq_iff_eq]
        omega
      rw [htail]
    · have hne : (a.transferId == t.transferId) = false := by
        have hgt := hlt t ht2
        simp only [beq_eq_false_iff_ne, ne_eq]
        omega
      rw [List.filter_cons_of_neg (by simp [hne]), ih hpw t ht2]

/-- The transfers of one session realize exactly the requested
(producer, consumers) pairs, in order. -/
theorem runTransfers_requests :
    ∀ (reqs : List (DeviceType × List DeviceType)) (n : Int),
      (runTransfers n reqs).map (fun t => (t.sendDevice, t.recvDevices)) =
        reqs := by
  intro reqs
  induction reqs with
  | nil =>
    intro n
    rfl
  | cons r rest ih =>
    intro n
    obtain ⟨src, dsts⟩ := r
    rw [runTransfers, List.map_cons, ih (n + 1)]

/-- C7 (spec-modelled): in one partitioning session, the `TransferId`s
allocated from the shared counter are strictly increasing (no id is ever
reused for a second send), each send shares its id with exactly its one
matching set of receives (filtering the session's transfers by a send's id
yields exactly that transfer), and the sends/receives realize exactly the
requested cross-device flows. -/
theorem transfer_ids_unique (n : Int)
    (reqs : List (DeviceType × List DeviceType)) :
    (runTransfers n reqs).Pairwise
      (fun t u => t.transferId < u.transferId) ∧
    (∀ t ∈ runTransfers n reqs,
      (runTransfers n reqs).filter
        (fun u => u.transferId == t.transferId) = [t]) ∧
    (runTransfers n reqs).map (fun t => (t.sendDevice, t.recvDevices)) =
      reqs :=
  ⟨runTransfers_pairwise reqs n,
    filter_tid_of_pairwise (runTransfers n reqs)
      (runTransfers_pairwise reqs n),
    runTransfers_requests reqs n⟩
